import Mathlib

/-!
Shallow embedding of the blackutility installer (C sources: blackutility.c and
the unnamed program variants part_003, part_004, part_005) and proofs about the
claims on its orchestration core: instance lock, readiness checks, discovery,
the install loop with retry/backoff and timeout, the cancellation flag, the
confirmation gate, logging rotation and process exit codes.

Strings that the C code manipulates byte-wise (package names, the typed
confirmation response) are modelled as `List Nat` (byte values); files as lists
of lines; external command invocations as oracles giving, per invocation, the
observable outcome (did SIGALRM/SIGINT fire during it, did it exit zero).
-/

/-- `MAX_RETRIES` from the C sources. -/
def MAX_RETRIES : Nat := 3

/-- `TIMEOUT_SECONDS` from the C sources (value of the per-attempt alarm). -/
def TIMEOUT_SECONDS : Nat := 300

/-- `MIN_DISK_SPACE` from the C sources: 10 GB in bytes. -/
def MIN_DISK_SPACE : Nat := 10737418240

/-- Memory threshold from `check_system_requirements`: 2097152 kB (2 GB). -/
def MEM_THRESHOLD_KB : Nat := 2097152

/-- Observable outcome of invoking the external install command once, with the
alarm armed around it: `tripped` is true when a signal (SIGALRM from the
300-second timeout, or SIGINT/SIGTERM routed through the flag-flipping
handler) fired during the invocation, in which case the handler has set the
global `keep_running` to 0; `cmdOk` is true when `execute_command` returned 1
(the command exited with status 0). -/
structure Outcome where
  tripped : Bool
  cmdOk : Bool
deriving DecidableEq

/-- Result of one `install_package` call: whether it returned 1, how many
attempts (invocations of the install command) it made, the value of
`keep_running` when it returned, and the list of `sleep` durations (seconds)
it performed between attempts, in order. -/
structure PkgRun where
  success : Bool
  attempts : Nat
  keep_running : Bool
  sleeps : List Nat
deriving DecidableEq

/-- Loop body of `install_package` (part_003 variant, lines 542-599).
The C loop is `while (retry_count < MAX_RETRIES && keep_running)`; each failed
attempt increments `retry_count` and, when attempts remain
(`retry_count < MAX_RETRIES`), sleeps 2 seconds. A timeout during the attempt
makes `alarm_handler` clear `keep_running`. `fuel` bounds the recursion; each
iteration that recurses increments `retry`, so `fuel = MAX_RETRIES` at
`retry = 0` never runs out before the loop condition turns false. -/
def install_package_go (outs : Nat → Outcome) :
    Nat → Nat → Bool → List Nat → PkgRun
  | 0, retry, kr, sleeps => ⟨false, retry, kr, sleeps⟩
  | fuel + 1, retry, kr, sleeps =>
    if retry < MAX_RETRIES ∧ kr = true then
      let o := outs retry
      let kr2 := !o.tripped && kr
      if o.cmdOk then ⟨true, retry + 1, kr2, sleeps⟩
      else
        install_package_go outs fuel (retry + 1) kr2
          (if retry + 1 < MAX_RETRIES then sleeps ++ [2] else sleeps)
    else ⟨false, retry, kr, sleeps⟩

/-- `install_package` (part_003 variant): starts with `retry_count = 0` and
`keep_running = 1`. -/
def install_package (outs : Nat → Outcome) : PkgRun :=
  install_package_go outs MAX_RETRIES 0 true []

/-- Loop body of `install_package` (blackutility.c variant, lines 397-426):
identical except that the 2-second sleep follows every failed attempt,
including the last one. -/
def install_package_bu_go (outs : Nat → Outcome) :
    Nat → Nat → Bool → List Nat → PkgRun
  | 0, retry, kr, sleeps => ⟨false, retry, kr, sleeps⟩
  | fuel + 1, retry, kr, sleeps =>
    if retry < MAX_RETRIES ∧ kr = true then
      let o := outs retry
      let kr2 := !o.tripped && kr
      if o.cmdOk then ⟨true, retry + 1, kr2, sleeps⟩
      else install_package_bu_go outs fuel (retry + 1) kr2 (sleeps ++ [2])
    else ⟨false, retry, kr, sleeps⟩

/-- `install_package` (blackutility.c variant). -/
def install_package_bu (outs : Nat → Outcome) : PkgRun :=
  install_package_bu_go outs MAX_RETRIES 0 true []

/-- Progress state of the `install_tools` loop (part_003 variant): `started`
counts the items for which the install command was invoked (the loop invokes
it exactly once per non-empty line), `completed` is
`g_progress.completed_packages`, `keep_running` the global flag. -/
structure RunState where
  started : Nat
  completed : Nat
  keep_running : Bool
deriving DecidableEq

/-- Install loop of `install_tools` (part_003 variant, lines 716-754):
`while (fgets(line, ...) && keep_running)`; empty lines are skipped; for each
non-empty line the install command runs once under the alarm (a signal during
it clears `keep_running`), and `completed_packages` is incremented afterwards
whether or not the command succeeded. `outs` is indexed by the number of items
started so far. -/
def loopGo (outs : Nat → Outcome) : List (List Nat) → RunState → RunState
  | [], s => s
  | line :: rest, s =>
    if s.keep_running then
      if 0 < line.length then
        loopGo outs rest
          ⟨s.started + 1, s.completed + 1,
            s.keep_running && !(outs s.started).tripped⟩
      else loopGo outs rest s
    else s

/-- Counting pass of `install_tools` (part_003 lines 698-704, part_005 lines
740-745): `total_packages` counts lines with `strlen(line) > 1` after newline
stripping. -/
def countTotal (lines : List (List Nat)) : Nat :=
  (lines.filter (fun l => 1 < l.length)).length

/-- Number of lines the install loop actually processes: those with
`strlen(line) > 0`. -/
def countNonempty (lines : List (List Nat)) : Nat :=
  (lines.filter (fun l => 0 < l.length)).length

/-- Result of `install_tools` (part_003 variant, lines 678-765): the early
returns (requirements not met, tool list unopenable, zero counted packages)
and the completed run with its final counters and flag. -/
inductive ItResult
  | reqFailed
  | openFailed
  | emptyList
  | ran (completed : Nat) (total : Nat) (keep_running : Bool)
deriving DecidableEq

/-- `install_tools` (part_003 variant): requirements check, open the file
written by discovery, count `total_packages` over lines with length > 1,
return early on zero, then run the install loop over all lines. -/
def install_tools (sysOk : Bool) (toolFile : Option (List (List Nat)))
    (outs : Nat → Outcome) : ItResult :=
  if !sysOk then .reqFailed
  else
    match toolFile with
    | none => .openFailed
    | some lines =>
      if countTotal lines = 0 then .emptyList
      else
        let f := loopGo outs lines ⟨0, 0, true⟩
        .ran f.completed (countTotal lines) f.keep_running

/-- `get_available_disk_space` (blackutility.c lines 146-152, identical in
part_003): on `statvfs` failure it returns 0, otherwise
`f_bsize * f_bavail`. The `statvfs` result is modelled as
`Option (f_bsize, f_bavail)`. -/
def get_available_disk_space (statvfsResult : Option (Nat × Nat)) : Nat :=
  match statvfsResult with
  | none => 0
  | some bs => bs.1 * bs.2

/-- Outcome of `check_system_requirements` together with the reason string it
emits on failure ("Insufficient disk space (10GB required)" versus
"Insufficient memory (2GB required)"). The function has no constructor for a
query-error reason: it cannot report one. -/
inductive CheckResult
  | ok
  | failDisk
  | failMemory
deriving DecidableEq

/-- The `MemTotal` scan inside `check_system_requirements`: `mem_total` starts
at 0 and the loop breaks at the first line starting with "MemTotal:", parsing
its value. A line is modelled as `some v` when it is a MemTotal line with
value `v` (in kB) and `none` otherwise. -/
def scan_mem_total : List (Option Nat) → Nat
  | [] => 0
  | some v :: _ => v
  | none :: rest => scan_mem_total rest

/-- Host facts consulted by `check_system_requirements`: the `statvfs("/")`
result, and the content of /proc/meminfo (`none` when `fopen` fails). -/
structure SysWorld where
  statvfsResult : Option (Nat × Nat)
  meminfo : Option (List (Option Nat))

/-- `check_system_requirements` (blackutility.c lines 154-182, identical in
part_003 lines 275-303): fail on disk space below the minimum; then, only if
/proc/meminfo could be opened, fail on MemTotal below the threshold; a
missing /proc/meminfo skips the memory check. -/
def check_system_requirements (w : SysWorld) : CheckResult :=
  if get_available_disk_space w.statvfsResult < MIN_DISK_SPACE then .failDisk
  else
    match w.meminfo with
    | none => .ok
    | some lines =>
      if scan_mem_total lines < MEM_THRESHOLD_KB then .failMemory else .ok

/-- C `toupper` on a byte in the C locale, as used by `str_to_upper`:
lowercase ASCII letters (97-122) map down by 32, everything else is
unchanged. -/
def c_toupper (b : Nat) : Nat :=
  if 97 ≤ b ∧ b ≤ 122 then b - 32 else b

/-- `str_to_upper` (part_003 lines 187-191, part_004 lines 415-419):
uppercases every byte in place. -/
def str_to_upper (s : List Nat) : List Nat := s.map c_toupper

/-- `response[strcspn(response, "\n")] = 0`: truncate at the first newline. -/
def strip_newline (s : List Nat) : List Nat := s.takeWhile (fun b => b ≠ 10)

/-- The confirmation token "AGREE" as bytes. -/
def AGREE_BYTES : List Nat := [65, 71, 82, 69, 69]

/-- The confirmation gate of part_003 main (lines 798-814) and part_004 main
(lines 712-731): strip the newline, uppercase, compare with "AGREE"; returns
the exit code contribution (0 = proceed, 1 = cancel). -/
def confirm_gate (response : List Nat) : Nat :=
  if str_to_upper (strip_newline response) = AGREE_BYTES then 0 else 1

/-- A byte string is a case variant of the word "agree": five characters,
each either the lowercase or the uppercase form of the corresponding letter
of "agree". -/
def isCaseVariantAgree (s : List Nat) : Bool :=
  match s with
  | [a, g, r, e1, e2] =>
    (a == 97 || a == 65) && (g == 103 || g == 71) && (r == 114 || r == 82) &&
      (e1 == 101 || e1 == 69) && (e2 == 101 || e2 == 69)
  | _ => false

/-- `create_lock_file` (blackutility.c lines 126-137, identical in part_003
and part_004): `open(LOCK_FILE, O_CREAT | O_EXCL | O_RDWR, 0644)` — an atomic
create-if-absent. Argument: whether the lock marker exists; result: (did the
call succeed, does the marker exist afterwards). There is no retry: a failure
is returned at once. -/
def create_lock_file (lockExists : Bool) : Bool × Bool :=
  if lockExists then (false, true) else (true, true)

/-- `release_lock_file`: unlinks the marker, but only when this process holds
the descriptor (`lock_fd >= 0`). Result: does the marker exist afterwards. -/
def release_lock_file (held : Bool) (lockExists : Bool) : Bool :=
  if held then false else lockExists

/-- Outcomes of the external commands run by `generate_tool_list` (part_003
lines 641-676): is the [blackarch] section already in pacman.conf, and the
success of appending the repo, importing the key, `pacman -Sy`, and the
query that writes the tool list file. -/
structure Discovery where
  repoPresent : Bool
  addRepoOk : Bool
  keyringOk : Bool
  syncOk : Bool
  queryOk : Bool

/-- `generate_tool_list` (part_003 lines 641-676): when the repo is missing,
register it and import its key (either failure is terminal); then refresh the
index and query it into the tool list file. -/
def generate_tool_list (d : Discovery) : Bool :=
  (if d.repoPresent then true else d.addRepoOk && d.keyringOk) &&
    (d.syncOk && d.queryOk)

/-- Everything part_003's `main` (lines 767-844) consults, in order: the lock
marker, effective uid, the confirmation line read from stdin (`none` when
`fgets` returns NULL), the discovery command outcomes, the
`pacman -Syyu --noconfirm` outcome, the host facts, the tool list file
written by discovery, and the per-item install command outcomes. -/
structure World3 where
  lockExists : Bool
  isRoot : Bool
  response : Option (List Nat)
  disc : Discovery
  updateOk : Bool
  sys : SysWorld
  toolFile : Option (List (List Nat))
  itemOuts : Nat → Outcome

/-- part_003 `main` (lines 767-844): returns the process exit code and, when
the run reaches `install_tools`, that call's result. Early returns: lock
creation failure, missing root, NULL confirmation input, a response whose
uppercase form is not "AGREE", `generate_tool_list` failure, system-update
failure. `install_tools` is a void call: after it, `main` checks
`cleanup_needed` — which no handler of this variant ever sets (its
`signal_handler` calls `exit(1)` directly and its `alarm_handler` touches
only `keep_running`) — and returns 0. -/
def main3 (w : World3) : Nat × Option ItResult :=
  if (create_lock_file w.lockExists).1 = false then (1, none)
  else if w.isRoot = false then (1, none)
  else
    match w.response with
    | none => (1, none)
    | some r =>
      if confirm_gate r = 1 then (1, none)
      else if generate_tool_list w.disc = false then (1, none)
      else if w.updateOk = false then (1, none)
      else
        (0, some (install_tools (check_system_requirements w.sys = .ok)
          w.toolFile w.itemOuts))

/-- blackutility.c `main` (lines 502-560), exit code only: lock failure,
missing root, a `scanf`-read response compared with "AGREE" directly (this
variant does not uppercase), update failure; `install_tools` cannot change
the exit code and `main` ends with `return 0`. -/
def main_bu (lockExists isRoot : Bool) (response : List Nat)
    (updateOk : Bool) : Nat :=
  if (create_lock_file lockExists).1 = false then 1
  else if isRoot = false then 1
  else if response ≠ AGREE_BYTES then 1
  else if updateOk = false then 1
  else 0

/-- Log-file state: does a file exist at LOG_FILE, and at BACKUP_LOG. -/
structure LogFs where
  logExists : Bool
  bakExists : Bool
deriving DecidableEq

/-- part_004 `initialize_logging` (lines 247-259): when a file exists at
LOG_FILE it is renamed to BACKUP_LOG (overwriting any previous backup), then
LOG_FILE is opened with mode "w". Both happen before any `log_message` call
of the run can write. Result: the filesystem afterwards, and whether the
rotation (rename) happened. -/
def rotate_logging (fs : LogFs) : LogFs × Bool :=
  if fs.logExists then (⟨true, true⟩, true) else (⟨true, fs.bakExists⟩, false)

/-- blackutility.c `initialize_logging` (lines 201-208): `fopen(LOG_FILE,
"a")` — append mode, creating the file if absent; no rename, BACKUP_LOG is
never touched (the macro is defined but unused in this variant). -/
def append_logging (fs : LogFs) : LogFs :=
  ⟨true, fs.bakExists⟩

/-- The start of part_004 `main` (lines 670-684) as far as logging is
concerned: `create_lock_file` runs first and its failure path returns 1
before `initialize_logging` is reached (the failure message goes to stderr,
not the log). -/
inductive StartOutcome
  | exited (code : Nat) (fs : LogFs) (rotated : Bool)
  | running (fs : LogFs) (rotated : Bool)
deriving DecidableEq

/-- Lock check then log initialization, as ordered in part_004 `main`. -/
def main4_start (lockExists : Bool) (fs : LogFs) : StartOutcome :=
  if (create_lock_file lockExists).1 = false then .exited 1 fs false
  else
    let p := rotate_logging fs
    .running p.1 p.2

/-- The two flags shared with the asynchronous handlers. -/
structure Flags where
  keep_running : Bool
  cleanup_needed : Bool
deriving DecidableEq

/-- part_004 `signal_handler` (lines 205-216): clears `keep_running`, sets
`cleanup_needed`; it never performs the reverse transition. -/
def signal_handler (_f : Flags) : Flags := ⟨false, true⟩

/-- part_004 `alarm_handler` (lines 218-223): same flag effect. -/
def alarm_handler (_f : Flags) : Flags := ⟨false, true⟩

/-! Helper lemmas about the embedded loops. -/

/-- Unfolding lemma for one iteration of the `install_package` loop. -/
theorem install_package_go_succ (outs : Nat → Outcome) (fuel retry : Nat)
    (kr : Bool) (sleeps : List Nat) :
    install_package_go outs (fuel + 1) retry kr sleeps =
      if retry < MAX_RETRIES ∧ kr = true then
        let o := outs retry
        let kr2 := !o.tripped && kr
        if o.cmdOk then ⟨true, retry + 1, kr2, sleeps⟩
        else
          install_package_go outs fuel (retry + 1) kr2
            (if retry + 1 < MAX_RETRIES then sleeps ++ [2] else sleeps)
      else ⟨false, retry, kr, sleeps⟩ := rfl

/-- Once `keep_running` is 0 the `install_package` loop condition is false and
the function returns at once. -/
theorem install_package_go_kr_false (outs : Nat → Outcome) (fuel retry : Nat)
    (sleeps : List Nat) :
    install_package_go outs fuel retry false sleeps =
      ⟨false, retry, false, sleeps⟩ := by
  cases fuel with
  | zero => rfl
  | succ n => rw [install_package_go_succ]; simp

/-- Once `keep_running` is 0 the install loop of `install_tools` processes no
further line. -/
theorem loopGo_stopped (outs : Nat → Outcome) (lines : List (List Nat))
    (s : RunState) (h : s.keep_running = false) : loopGo outs lines s = s := by
  cases lines with
  | nil => rfl
  | cons l rest => simp [loopGo, h]

/-- When the item with index `k` observes a tripped flag, no item with a
higher index ever starts: the loop's `started` counter stays at most
`k + 1` on any state whose counter has not yet passed that bound with the
flag still set. -/
theorem loopGo_started_le (outs : Nat → Outcome) (k : Nat)
    (h : (outs k).tripped = true) :
    ∀ (lines : List (List Nat)) (s : RunState),
      s.started ≤ k + 1 → (s.started = k + 1 → s.keep_running = false) →
      (loopGo outs lines s).started ≤ k + 1 := by
  intro lines
  induction lines with
  | nil => intro s h1 _; exact h1
  | cons l rest ih =>
    intro s h1 h2
    by_cases hkr : s.keep_running = true
    · by_cases hl : 0 < l.length
      · have hs : s.started ≤ k := by
          rcases Nat.lt_or_ge s.started (k + 1) with hlt | hge
          · omega
          · have heq : s.started = k + 1 := by omega
            rw [h2 heq] at hkr
            cases hkr
        rw [loopGo, if_pos hkr, if_pos hl]
        apply ih
        · show s.started + 1 ≤ k + 1
          omega
        · intro he
          have hk : s.started = k := by
            have hse : s.started + 1 = k + 1 := he
            omega
          show (s.keep_running && !(outs s.started).tripped) = false
          rw [hk, h, Bool.not_true, Bool.and_false]
      · rw [loopGo, if_pos hkr, if_neg hl]
        exact ih s h1 h2
    · rw [loopGo_stopped outs _ s (Bool.not_eq_true _ ▸ hkr)]
      exact h1

/-- When no invocation trips the flag, the install loop processes every
non-empty line: both counters advance by the number of non-empty lines and
the flag stays set. Failing commands do not stop the loop. -/
theorem loopGo_all_no_trip (outs : Nat → Outcome)
    (hnt : ∀ j, (outs j).tripped = false) :
    ∀ (lines : List (List Nat)) (s : RunState), s.keep_running = true →
      loopGo outs lines s =
        ⟨s.started + countNonempty lines, s.completed + countNonempty lines,
          true⟩ := by
  intro lines
  induction lines with
  | nil =>
    intro s hs
    obtain ⟨a, b, c⟩ := s
    simp only [loopGo, countNonempty, List.filter_nil, List.length_nil,
      Nat.add_zero]
    simp only [RunState.keep_running] at hs
    rw [hs]
  | cons l rest ih =>
    intro s hs
    by_cases hl : 0 < l.length
    · rw [loopGo, if_pos hs, if_pos hl]
      rw [ih _ (by rw [hs, hnt s.started]; rfl)]
      have hc : countNonempty (l :: rest) = countNonempty rest + 1 := by
        simp only [countNonempty, List.filter]
        rw [decide_eq_true hl]
        simp
      rw [hc]
      show (⟨s.started + 1 + countNonempty rest,
        s.completed + 1 + countNonempty rest, true⟩ : RunState) = _
      congr 1 <;> omega
    · rw [loopGo, if_pos hs, if_neg hl]
      rw [ih s hs]
      have hc : countNonempty (l :: rest) = countNonempty rest := by
        simp only [countNonempty, List.filter]
        rw [decide_eq_false hl]
      rw [hc]

/-- Evaluation of `install_package` when every attempt's command fails with no
signal: three attempts, a constant 2-second pause between consecutive
attempts, failure returned, flag intact. -/
theorem install_package_allfail (outs : Nat → Outcome)
    (h : ∀ j, outs j = ⟨false, false⟩) :
    install_package outs = ⟨false, 3, true, [2, 2]⟩ := by
  show install_package_go outs (2 + 1) 0 true [] = _
  rw [install_package_go_succ, if_pos (by constructor <;> trivial)]
  simp only [h 0]
  norm_num
  show install_package_go outs (1 + 1) 1 true [2] = _
  rw [install_package_go_succ, if_pos (by constructor <;> trivial)]
  simp only [h 1]
  norm_num
  show install_package_go outs (0 + 1) 2 true [2, 2] = _
  rw [install_package_go_succ, if_pos (by constructor <;> trivial)]
  simp only [h 2]
  norm_num
  show install_package_go outs 0 3 true [2, 2] = _
  rfl

/-- Evaluation of `install_package` when the very first attempt is interrupted
by the timeout signal and its command does not exit 0: exactly one attempt is
made, one 2-second sleep runs, and the function returns failure with the
global flag cleared, so the retry loop never re-attempts the item. -/
theorem install_package_first_timeout (outs : Nat → Outcome)
    (h : outs 0 = ⟨true, false⟩) :
    install_package outs = ⟨false, 1, false, [2]⟩ := by
  show install_package_go outs (2 + 1) 0 true [] = _
  rw [install_package_go_succ, if_pos (by constructor <;> trivial)]
  simp only [h]
  norm_num
  exact install_package_go_kr_false outs 2 1 [2]

/-! Claim C1. -/

/-- Attempt outcomes in which the first invocation of the install command is
interrupted by the 300-second SIGALRM (and exits nonzero), and all later
invocations would simply fail. -/
def c1_outs : Nat → Outcome := fun j => if j = 0 then ⟨true, false⟩ else ⟨false, false⟩

/-- C1 counterexample: with the first attempt timing out, `install_package`
makes exactly one attempt — not the further retries the claim promises for a
recoverable local failure — and returns with `keep_running` cleared; in the
install loop a first item whose command times out leaves every later item
unstarted (`started = 1` with a second line present, not 2). So timeout
expiry neither re-enters the retry logic for the item nor lets later items
start. -/
theorem c1_counterexample :
    install_package c1_outs = ⟨false, 1, false, [2]⟩ ∧
    loopGo c1_outs [[97], [98]] ⟨0, 0, true⟩ = ⟨1, 1, false⟩ ∧
    (1 : Nat) ≠ 2 := by
  refine ⟨install_package_first_timeout c1_outs rfl, ?_, by decide⟩
  decide

/-- C1 amended: expiry of the per-item 300-second timeout is a global
cancellation, not a local recoverable failure — the timed-out invocation
counts as the item's final attempt (the handler clears `keep_running`, so the
retry loop exits without re-attempting the item after its one bookkeeping
sleep), and the install loop starts no further item: the run halts. -/
theorem c1_timeout_is_global_cancellation (outs : Nat → Outcome)
    (l : List Nat) (rest : List (List Nat))
    (h : outs 0 = ⟨true, false⟩) (hl : 0 < l.length) :
    install_package outs = ⟨false, 1, false, [2]⟩ ∧
    loopGo outs (l :: rest) ⟨0, 0, true⟩ = ⟨1, 1, false⟩ := by
  refine ⟨install_package_first_timeout outs h, ?_⟩
  have hkr2 : (true && !(outs 0).tripped) = false := by rw [h]; rfl
  rw [loopGo, if_pos rfl, if_pos hl, loopGo_stopped _ _ _ hkr2]
  show (⟨0 + 1, 0 + 1, true && !(outs 0).tripped⟩ : RunState) = ⟨1, 1, false⟩
  rw [hkr2]

/-- C1 amended witness at a concrete oracle and item list. -/
theorem c1_timeout_is_global_cancellation_witness :
    install_package (fun _ => ⟨true, false⟩) = ⟨false, 1, false, [2]⟩ ∧
    loopGo (fun _ => ⟨true, false⟩) [[110, 109], [106, 111]] ⟨0, 0, true⟩ =
      ⟨1, 1, false⟩ :=
  c1_timeout_is_global_cancellation (fun _ => ⟨true, false⟩) [110, 109]
    [[106, 111]] rfl (by decide)

/-! Claim C2. -/

/-- Attempt outcomes in which every invocation of the install command fails
and no signal fires. -/
def c2_allfail : Nat → Outcome := fun _ => ⟨false, false⟩

/-- C2 counterexample: with a command that always exits 1, both variants of
`install_package` pause exactly 2 seconds between consecutive attempts — the
pause after the second failure is not longer than the pause after the first
(2 < 2 is false), so the backoff does not increase with the attempt
number. -/
theorem c2_counterexample :
    install_package c2_allfail = ⟨false, 3, true, [2, 2]⟩ ∧
    install_package_bu c2_allfail = ⟨false, 3, true, [2, 2, 2]⟩ ∧
    ¬ ((2 : Nat) < 2) := by
  refine ⟨install_package_allfail c2_allfail (fun _ => rfl), by decide, by decide⟩

/-- C2 amended: an item whose install command always fails is attempted
exactly `MAX_RETRIES = 3` times by `install_package`, with a constant
2-second pause between consecutive attempts (not a progressive backoff),
after which the function returns terminal failure; and the `install_tools`
loop is never stopped by failing commands — it still processes every
non-empty line and finishes with the flag set. -/
theorem c2_retry_ceiling_constant_pause (outs : Nat → Outcome)
    (lines : List (List Nat)) (h : ∀ j, outs j = ⟨false, false⟩) :
    install_package outs = ⟨false, 3, true, [2, 2]⟩ ∧
    loopGo outs lines ⟨0, 0, true⟩ =
      ⟨countNonempty lines, countNonempty lines, true⟩ := by
  refine ⟨install_package_allfail outs h, ?_⟩
  rw [loopGo_all_no_trip outs (fun j => by rw [h j]) lines ⟨0, 0, true⟩ rfl]
  show (⟨0 + countNonempty lines, 0 + countNonempty lines, true⟩ : RunState) = _
  rw [Nat.zero_add]

/-- C2 amended witness at a concrete oracle and item list. -/
theorem c2_retry_ceiling_constant_pause_witness :
    install_package c2_allfail = ⟨false, 3, true, [2, 2]⟩ ∧
    loopGo c2_allfail [[98, 97, 100], []] ⟨0, 0, true⟩ =
      ⟨countNonempty [[98, 97, 100], []], countNonempty [[98, 97, 100], []],
        true⟩ :=
  c2_retry_ceiling_constant_pause c2_allfail [[98, 97, 100], []]
    (fun _ => rfl)

/-! Claim C3. -/

/-- Per-item outcomes for a run whose install commands all succeed with no
signal. -/
def c3_outs : Nat → Outcome := fun _ => ⟨false, true⟩

/-- C3: evaluation of `install_tools` on a tool-list file whose lines are
"x" (one byte, 120) and "ab" (two bytes): the counting pass admits only lines
longer than one character, so `total_packages = 1`, while the install loop
processes every non-empty line and increments `completed_packages` twice —
the run ends normally (flag still set) reporting completed = 2 of total = 1,
violating `completed ≤ total` and `completed = total` at normal
termination. -/
theorem c3_completed_exceeds_total :
    install_tools true (some [[120], [97, 98]]) c3_outs =
      ItResult.ran 2 1 true ∧
    ¬ ((2 : Nat) ≤ 1) := by
  constructor
  · rfl
  · decide

/-! Claim C4. -/

/-- C4: the lock is an atomic create-if-absent on the fixed path
/var/lock/blackutility.lock. When the marker exists, `create_lock_file`
fails at once (no retry is present in its code) and `main` returns 1
immediately; after any successful acquisition the marker exists, so a second
acquisition by another actor fails as long as the marker has not been
removed; `release_lock_file` by the holder removes the marker, after which
acquisition succeeds again. -/
theorem c4_lock_mutual_exclusion (s isRoot : Bool) (resp : List Nat)
    (updOk : Bool) :
    create_lock_file true = (false, true) ∧
    create_lock_file (create_lock_file s).2 = (false, true) ∧
    release_lock_file true (create_lock_file false).2 = false ∧
    create_lock_file (release_lock_file true (create_lock_file false).2) =
      (true, true) ∧
    main_bu true isRoot resp updOk = 1 := by
  refine ⟨rfl, ?_, rfl, rfl, rfl⟩
  cases s <;> rfl

/-- C4 witness at concrete inputs. -/
theorem c4_lock_mutual_exclusion_witness :
    create_lock_file true = (false, true) ∧
    create_lock_file (create_lock_file false).2 = (false, true) ∧
    release_lock_file true (create_lock_file false).2 = false ∧
    create_lock_file (release_lock_file true (create_lock_file false).2) =
      (true, true) ∧
    main_bu true true AGREE_BYTES true = 1 :=
  c4_lock_mutual_exclusion false true AGREE_BYTES true

/-! Claim C5. -/

/-- C5: the cancellation flag is monotone and stops item starts. The
signal handler only ever writes `keep_running := 0`; a loop state whose flag
is cleared is final (the loop returns it unchanged, so the flag is never
re-set and nothing further starts); if the loop ends with the flag still
set, it was set at entry (no un-tripping inside the loop either); and when
the item with index `k` (the `(k+1)`-th started item) observes the trip, no
later item is ever started: the final `started` counter is at most
`k + 1`. -/
theorem c5_flag_monotone_and_bounded_starts (outs : Nat → Outcome)
    (lines : List (List Nat)) (s : RunState) (k : Nat) (f : Flags)
    (h : (outs k).tripped = true) :
    signal_handler f = ⟨false, true⟩ ∧
    (s.keep_running = false → loopGo outs lines s = s) ∧
    ((loopGo outs lines s).keep_running = true → s.keep_running = true) ∧
    (loopGo outs lines ⟨0, 0, true⟩).started ≤ k + 1 := by
  refine ⟨rfl, loopGo_stopped outs lines s, ?_, ?_⟩
  · intro hres
    by_cases hs : s.keep_running = true
    · exact hs
    · rw [loopGo_stopped outs lines s (Bool.not_eq_true _ ▸ hs)] at hres
      exact hres
  · exact loopGo_started_le outs k h lines ⟨0, 0, true⟩ (Nat.zero_le _)
      (fun he => absurd he (Ne.symm (Nat.succ_ne_zero k)))

/-- C5 witness: a concrete oracle whose first invocation trips the flag, a
two-item list, and a concrete stopped state. -/
theorem c5_flag_monotone_and_bounded_starts_witness :
    signal_handler ⟨true, false⟩ = ⟨false, true⟩ ∧
    ((⟨4, 4, false⟩ : RunState).keep_running = false →
      loopGo c1_outs [[97], [98]] ⟨4, 4, false⟩ = ⟨4, 4, false⟩) ∧
    ((loopGo c1_outs [[97], [98]] ⟨4, 4, false⟩).keep_running = true →
      (⟨4, 4, false⟩ : RunState).keep_running = true) ∧
    (loopGo c1_outs [[97], [98]] ⟨0, 0, true⟩).started ≤ 0 + 1 :=
  c5_flag_monotone_and_bounded_starts c1_outs [[97], [98]] ⟨4, 4, false⟩ 0
    ⟨true, false⟩ rfl

/-! Claim C6. -/

/-- The confirmation gate returns 0 or 1. -/
theorem confirm_gate_cases (r : List Nat) :
    confirm_gate r = 0 ∨ confirm_gate r = 1 := by
  unfold confirm_gate
  split
  · exact Or.inl rfl
  · exact Or.inr rfl

/-- A run of part_003's `main` in which every gate passes — lock free, root,
response "agree", repository present with index refresh and query succeeding,
system update succeeding, requirements amply met — but the generated tool
list holds a single blank line, so discovery produced an empty result set. -/
def c6_world : World3 :=
  { lockExists := false
    isRoot := true
    response := some [97, 103, 114, 101, 101]
    disc := ⟨true, true, true, true, true⟩
    updateOk := true
    sys := ⟨some (4096, 10000000), some [some 4000000]⟩
    toolFile := some [[]]
    itemOuts := fun _ => ⟨false, true⟩ }

/-- C6 counterexample: a discovery failure — the empty result set, which
`install_tools` detects and abandons with a warning — does not make the
process exit 1: `main` still returns 0, because `install_tools` is a void
call whose failures never reach the exit code. -/
theorem c6_counterexample :
    (main3 c6_world).1 = 0 ∧ (main3 c6_world).2 = some ItResult.emptyList ∧
    (0 : Nat) ≠ 1 := by
  refine ⟨rfl, rfl, by decide⟩

/-- C6 amended: the exit code of part_003's `main` is always 0 or 1; it is 0
exactly when the lock was acquired, the process is root, the confirmation
response uppercases to "AGREE", the `generate_tool_list` command chain
succeeded and the system update succeeded — the readiness check and the
tool-list contents (unopenable file, empty result set, per-item failures)
never influence it, since `install_tools` runs after the exit code is
already bound to 0. -/
theorem c6_exit_code_characterization (w : World3) :
    ((main3 w).1 = 0 ∨ (main3 w).1 = 1) ∧
    ((main3 w).1 = 0 ↔
      w.lockExists = false ∧ w.isRoot = true ∧
        w.response.map confirm_gate = some 0 ∧
        generate_tool_list w.disc = true ∧ w.updateOk = true) ∧
    ((main3 w).1 = 0 → (main3 w).2 =
      some (install_tools (check_system_requirements w.sys = CheckResult.ok)
        w.toolFile w.itemOuts)) := by
  obtain ⟨lk, rt, resp, d, up, sy, tf, io⟩ := w
  cases lk with
  | true => simp [main3, create_lock_file]
  | false =>
    cases rt with
    | false => simp [main3, create_lock_file]
    | true =>
      cases resp with
      | none => simp [main3, create_lock_file]
      | some r =>
        rcases confirm_gate_cases r with hg | hg
        · cases hgen : generate_tool_list d with
          | false => simp [main3, create_lock_file, hg, hgen]
          | true =>
            cases up with
            | false => simp [main3, create_lock_file, hg, hgen]
            | true => simp [main3, create_lock_file, hg, hgen]
        · simp [main3, create_lock_file, hg]

/-! Claim C7. -/

/-- C7 counterexample: in the blackutility.c variant an existing log file at
the fixed path is NOT renamed before the run's log writes — its
`initialize_logging` opens the log in append mode, so after initialization
the backup path still holds no file (the BACKUP_LOG macro of that variant is
defined but never used). -/
theorem c7_counterexample :
    append_logging ⟨true, false⟩ = ⟨true, false⟩ ∧
    (append_logging ⟨true, false⟩).bakExists = false := by
  exact ⟨rfl, rfl⟩

/-- C7 amended: rotation-to-backup-on-restart is implemented only by the
part_004/part_005 variant: there, a pre-existing log is renamed to the .bak
path and the log reopened fresh before any log write of the run, and when
the lock marker already exists the process exits with code 1 before
`initialize_logging`, so no rotation occurs; the blackutility.c variant
instead appends to the existing log and never touches the backup path. -/
theorem c7_rotation_semantics (fs : LogFs) (h : fs.logExists = true) :
    main4_start false fs = .running ⟨true, true⟩ true ∧
    main4_start true fs = .exited 1 fs false ∧
    append_logging fs = ⟨true, fs.bakExists⟩ := by
  refine ⟨?_, rfl, rfl⟩
  rw [main4_start, if_neg (by simp [create_lock_file])]
  rw [rotate_logging, if_pos h]

/-- C7 amended witness at a concrete log-file state. -/
theorem c7_rotation_semantics_witness :
    main4_start false ⟨true, false⟩ = .running ⟨true, true⟩ true ∧
    main4_start true ⟨true, false⟩ = .exited 1 ⟨true, false⟩ false ∧
    append_logging ⟨true, false⟩ = ⟨true, (⟨true, false⟩ : LogFs).bakExists⟩ :=
  c7_rotation_semantics ⟨true, false⟩ rfl

/-! Claim C8. -/

/-- C toupper maps a byte to an uppercase letter `U` exactly when the byte is
`U` itself or its lowercase form `U + 32`. -/
theorem c_toupper_eq_upper (b U : Nat) (h1 : 65 ≤ U) (h2 : U ≤ 90) :
    c_toupper b = U ↔ (b = U + 32 ∨ b = U) := by
  unfold c_toupper
  split
  · next hb => omega
  · next hb => omega

/-- Stripping at the first newline is the identity on newline-free input. -/
theorem strip_newline_id (s : List Nat) (h : (10 : Nat) ∉ s) :
    strip_newline s = s := by
  induction s with
  | nil => rfl
  | cons b rest ih =>
    have hb : b ≠ 10 := fun he => h (he ▸ List.mem_cons_self b rest)
    rw [strip_newline, List.takeWhile_cons, decide_eq_true hb]
    simp only [if_true]
    rw [show List.takeWhile (fun x => decide (x ≠ 10)) rest =
      strip_newline rest from rfl]
    rw [ih (fun hm => h (List.mem_cons_of_mem b hm))]

/-- Uppercasing a byte string yields exactly "AGREE" precisely for the case
variants of the word "agree". -/
theorem upper_agree_iff (s : List Nat) :
    str_to_upper s = AGREE_BYTES ↔ isCaseVariantAgree s = true := by
  rcases s with _ | ⟨a, _ | ⟨g, _ | ⟨r, _ | ⟨e1, _ | ⟨e2, rest⟩⟩⟩⟩⟩
  · simp [str_to_upper, AGREE_BYTES, isCaseVariantAgree]
  · simp [str_to_upper, AGREE_BYTES, isCaseVariantAgree]
  · simp [str_to_upper, AGREE_BYTES, isCaseVariantAgree]
  · simp [str_to_upper, AGREE_BYTES, isCaseVariantAgree]
  · simp [str_to_upper, AGREE_BYTES, isCaseVariantAgree]
  · cases rest with
    | cons x xs => simp [str_to_upper, AGREE_BYTES, isCaseVariantAgree]
    | nil =>
      simp only [str_to_upper, List.map_cons, List.map_nil, AGREE_BYTES,
        List.cons.injEq, and_true, isCaseVariantAgree, Bool.and_eq_true,
        Bool.or_eq_true, beq_iff_eq]
      rw [c_toupper_eq_upper a 65 (by norm_num) (by norm_num),
        c_toupper_eq_upper g 71 (by norm_num) (by norm_num),
        c_toupper_eq_upper r 82 (by norm_num) (by norm_num),
        c_toupper_eq_upper e1 69 (by norm_num) (by norm_num),
        c_toupper_eq_upper e2 69 (by norm_num) (by norm_num)]
      norm_num
      tauto

/-- A world for exercising the confirmation gate inside part_003's `main`:
lock free and root, so control reaches the gate. -/
def c8_world (r : List Nat) : World3 :=
  { lockExists := false
    isRoot := true
    response := some r
    disc := ⟨true, true, true, true, true⟩
    updateOk := true
    sys := ⟨some (4096, 10000000), some [some 4000000]⟩
    toolFile := some [[110, 109, 97, 112]]
    itemOuts := fun _ => ⟨false, true⟩ }

/-- C8: the typed response (a newline-free line as delivered by fgets after
stripping) is uppercased by `str_to_upper` before comparison with "AGREE",
so the gate accepts exactly the case variants of the word "agree"
("agree", "Agree", "AGREE", ...); on every other input the gate yields 1 and
`main` exits with code 1. -/
theorem c8_confirmation_case_insensitive (s : List Nat)
    (hnl : (10 : Nat) ∉ s) :
    (confirm_gate s = 0 ↔ isCaseVariantAgree s = true) ∧
    (isCaseVariantAgree s = false → (main3 (c8_world s)).1 = 1) := by
  have hg : confirm_gate s = 0 ↔ isCaseVariantAgree s = true := by
    unfold confirm_gate
    rw [strip_newline_id s hnl]
    split
    · next he => simp [upper_agree_iff s |>.mp he]
    · next he =>
      rw [← upper_agree_iff]
      simp [he]
  refine ⟨hg, ?_⟩
  intro hv
  have hg1 : confirm_gate s = 1 := by
    rcases confirm_gate_cases s with h0 | h1
    · rw [hg.mp h0] at hv
      cases hv
    · exact h1
  simp [main3, c8_world, create_lock_file, hg1]

/-- C8 witness: "agree" (lowercase) is accepted and is a case variant. -/
theorem c8_confirmation_case_insensitive_witness :
    (confirm_gate [97, 103, 114, 101, 101] = 0 ↔
      isCaseVariantAgree [97, 103, 114, 101, 101] = true) ∧
    (isCaseVariantAgree [97, 103, 114, 101, 101] = false →
      (main3 (c8_world [97, 103, 114, 101, 101])).1 = 1) :=
  c8_confirmation_case_insensitive [97, 103, 114, 101, 101] (by decide)

/-! Claims C9 and C10. -/

/-- C9: when `statvfs("/")` fails, `get_available_disk_space` reports 0
bytes, so `check_system_requirements` always fails with the
insufficient-disk-space reason — the result type of the check has no
distinct query-error reason it could report. -/
theorem c9_statvfs_failure_reports_disk (w : SysWorld)
    (h : w.statvfsResult = none) :
    get_available_disk_space w.statvfsResult = 0 ∧
    check_system_requirements w = CheckResult.failDisk := by
  constructor
  · rw [h]
    rfl
  · unfold check_system_requirements
    rw [h]
    rw [if_pos]
    show (0 : Nat) < MIN_DISK_SPACE
    norm_num [MIN_DISK_SPACE]

/-- C9 witness at a concrete host. -/
theorem c9_statvfs_failure_reports_disk_witness :
    get_available_disk_space (SysWorld.mk none (some [some 4000000])).statvfsResult = 0 ∧
    check_system_requirements (SysWorld.mk none (some [some 4000000])) =
      CheckResult.failDisk :=
  c9_statvfs_failure_reports_disk (SysWorld.mk none (some [some 4000000])) rfl

/-- C10: when /proc/meminfo cannot be opened, `check_system_requirements`
skips the memory threshold entirely: whenever the disk-space check passes it
reports the host ready, whatever the machine's actual memory. -/
theorem c10_meminfo_missing_skips_memory_check (w : SysWorld)
    (hm : w.meminfo = none)
    (hd : MIN_DISK_SPACE ≤ get_available_disk_space w.statvfsResult) :
    check_system_requirements w = CheckResult.ok := by
  unfold check_system_requirements
  rw [hm, if_neg (Nat.not_lt.mpr hd)]

/-- C10 witness: a host whose root filesystem reports exactly the minimum
disk space and whose /proc/meminfo is unreadable. -/
theorem c10_meminfo_missing_skips_memory_check_witness :
    check_system_requirements (SysWorld.mk (some (10737418240, 1)) none) =
      CheckResult.ok :=
  c10_meminfo_missing_skips_memory_check
    (SysWorld.mk (some (10737418240, 1)) none) rfl (by norm_num [MIN_DISK_SPACE, get_available_disk_space])
